import Mathlib

/-!
Verification of the authorization core of a FHIR server.

The definitions below are a shallow embedding of the Rust sources
`src/service/authorization.rs` and `src/service/authorization_rules.rs`:
Rust `String` is modelled as Lean `String` (with `str::strip_prefix`
modelled as a prefix test on the underlying character list), `HashSet<Role>`
as `List Role` (all uses are membership / any-quantification, which are
insensitive to duplicates and order of insertion for the properties proved
here, since the role type is a 4-element enum and the checks are
disjunctive), `HashMap<String,String>` as an association list, and
`Result<(), FhirError>` as `Except FhirError Unit`; the `?` operator is
modelled by the monadic bind of `Except`.
-/

namespace FhirServer

/-- User roles in the FHIR system (`enum Role`). -/
inductive Role where
  | Admin
  | Clinician
  | Patient
  | System
deriving DecidableEq, Repr

/-- Permission types for resources (`enum Permission`). -/
inductive Permission where
  | Read
  | Create
  | Update
  | Delete
  | Search
  | ReadHistory
deriving DecidableEq, Repr

/-- Rust `{:?}` (derived Debug) rendering of a `Permission`, as used in
the error message of `check_permission`. -/
def permissionDebug : Permission → String
  | .Read => "Read"
  | .Create => "Create"
  | .Update => "Update"
  | .Delete => "Delete"
  | .Search => "Search"
  | .ReadHistory => "ReadHistory"

/-- The error taxonomy (`enum FhirError` in `domain/errors.rs`); the
authorization core only ever produces the `Forbidden` case. -/
inductive FhirError where
  | Validation (msg : String)
  | NotFound (resource_type : String) (id : String)
  | InvalidResourceType (msg : String)
  | MissingRequiredField (msg : String)
  | InvalidReference (msg : String)
  | Serialization (msg : String)
  | Database (msg : String)
  | Conflict (msg : String)
  | PreconditionFailed (msg : String)
  | UnprocessableEntity (msg : String)
  | Forbidden (message : String)
deriving DecidableEq, Repr

/-- Rust `FhirResult<T> = Result<T, FhirError>`. -/
abbrev FhirResult (α : Type) := Except FhirError α

/-- Security context containing user identity and permissions
(`struct SecurityContext`). -/
structure SecurityContext where
  user_id : String
  roles : List Role
  patient_id : Option String
  organization_id : Option String
  claims : List (String × String)
deriving DecidableEq, Repr

namespace SecurityContext

/-- Rust `SecurityContext::new`. -/
def new (user_id : String) (roles : List Role) : SecurityContext :=
  { user_id := user_id
    roles := roles
    patient_id := none
    organization_id := none
    claims := [] }

/-- Rust `SecurityContext::admin`. -/
def admin (user_id : String) : SecurityContext :=
  new user_id [Role.Admin]

/-- Rust `SecurityContext::clinician`. -/
def clinician (user_id : String) (organization_id : Option String) : SecurityContext :=
  { new user_id [Role.Clinician] with organization_id := organization_id }

/-- Rust `SecurityContext::patient`. -/
def patient (user_id : String) (patient_id : String) : SecurityContext :=
  { new user_id [Role.Patient] with patient_id := some patient_id }

/-- Rust `SecurityContext::system`. -/
def system : SecurityContext :=
  new "system" [Role.System]

/-- Rust `SecurityContext::has_role`. -/
def has_role (ctx : SecurityContext) (role : Role) : Bool :=
  ctx.roles.contains role

/-- Rust `SecurityContext::is_patient`. -/
def is_patient (ctx : SecurityContext) : Bool :=
  ctx.has_role Role.Patient

/-- Rust `SecurityContext::is_admin`. -/
def is_admin (ctx : SecurityContext) : Bool :=
  ctx.has_role Role.Admin

/-- Rust `SecurityContext::is_clinician`. -/
def is_clinician (ctx : SecurityContext) : Bool :=
  ctx.has_role Role.Clinician

/-- Rust `SecurityContext::is_system`. -/
def is_system (ctx : SecurityContext) : Bool :=
  ctx.has_role Role.System

/-- Rust `SecurityContext::get_patient_id` (`Option<&str>` modelled as
`Option String`). -/
def get_patient_id (ctx : SecurityContext) : Option String :=
  ctx.patient_id

end SecurityContext

/-- Rust `DefaultAuthorizer::role_has_permission`. -/
def role_has_permission (role : Role) (permission : Permission) : Bool :=
  match role with
  | Role.Admin | Role.System => true
  | Role.Clinician =>
    match permission with
    | Permission.Read | Permission.Create | Permission.Update
    | Permission.Search | Permission.ReadHistory => true
    | Permission.Delete => false
  | Role.Patient =>
    match permission with
    | Permission.Read | Permission.Search | Permission.ReadHistory => true
    | Permission.Create | Permission.Update | Permission.Delete => false

/-- Rust `DefaultAuthorizer::check_permission` (trait `Authorizer`). -/
def check_permission (context : SecurityContext) (resource_type : String)
    (permission : Permission) : FhirResult Unit :=
  let has_permission :=
    context.roles.any (fun role => role_has_permission role permission)
  if has_permission then
    Except.ok ()
  else
    Except.error (FhirError.Forbidden
      ("User " ++ context.user_id ++ " does not have permission "
        ++ permissionDebug permission ++ " for resource type " ++ resource_type))

/-- Rust `DefaultAuthorizer::check_resource_access` (trait `Authorizer`); the
Rust `?` on the first check and the early `return`s are written as explicit
branching. -/
def check_resource_access (context : SecurityContext) (resource_type : String)
    (resource_id : String) (permission : Permission) : FhirResult Unit :=
  match check_permission context resource_type permission with
  | Except.error e => Except.error e
  | Except.ok _ =>
    if context.is_admin || context.is_system then
      Except.ok ()
    else if context.is_patient && resource_type == "Patient" then
      match context.get_patient_id with
      | some patient_id =>
        if patient_id == resource_id then
          Except.ok ()
        else
          Except.error (FhirError.Forbidden
            ("Patient " ++ context.user_id ++ " cannot access Patient resource "
              ++ resource_id))
      | none =>
        Except.error (FhirError.Forbidden
          ("Patient " ++ context.user_id ++ " cannot access Patient resource "
            ++ resource_id))
    else
      Except.ok ()

/-- Rust `DefaultAuthorizer::check_patient_compartment_access` (trait
`Authorizer`); note that unlike `check_resource_access` the Admin/System
shortcut here precedes the base permission check. -/
def check_patient_compartment_access (context : SecurityContext)
    (patient_id : String) (permission : Permission) : FhirResult Unit :=
  if context.is_admin || context.is_system then
    Except.ok ()
  else
    match check_permission context "Patient" permission with
    | Except.error e => Except.error e
    | Except.ok _ =>
      if context.is_patient then
        match context.get_patient_id with
        | some ctx_patient_id =>
          if ctx_patient_id == patient_id then
            Except.ok ()
          else
            Except.error (FhirError.Forbidden
              ("Patient " ++ context.user_id
                ++ " cannot access patient compartment for patient " ++ patient_id))
        | none =>
          Except.error (FhirError.Forbidden
            ("Patient " ++ context.user_id
              ++ " cannot access patient compartment for patient " ++ patient_id))
      else
        Except.ok ()

/-! ### Resource data model (`src/domain`)

The FHIR primitive newtypes (`FhirString(pub String)`, `Uri(pub String)`,
`Id(pub String)`, `Code(pub String)`) are modelled directly as `String`;
of the clinical resource structs only the fields consulted by the
authorization layer (`subject`, plus identity/required-constructor fields)
are carried — the remaining clinical payload fields are never read by any
function verified here. -/

/-- Rust `struct Identifier` (only the fields relevant as a `Reference` payload). -/
structure Identifier where
  system : Option String
  value : Option String
deriving DecidableEq, Repr

/-- Rust `struct Reference` (`domain/datatypes.rs`). -/
structure Reference where
  reference : Option String
  type_ : Option String
  identifier : Option Identifier
  display : Option String
deriving DecidableEq, Repr

/-- Rust `struct CodeableConcept` (coding list collapsed to its text; the
authorization layer never reads it). -/
structure CodeableConcept where
  text : Option String
deriving DecidableEq, Repr

/-- Rust `struct Patient` (authorization-relevant projection: the rule set
receives it opaquely). -/
structure Patient where
  resource_type : String
  id : Option String
deriving DecidableEq, Repr

/-- Rust `struct Observation` (authorization-relevant projection). -/
structure Observation where
  resource_type : String
  id : Option String
  status : String
  code : CodeableConcept
  subject : Option Reference
deriving DecidableEq, Repr

/-- Rust `struct Condition` (authorization-relevant projection; `subject` is a
required field in the source). -/
structure Condition where
  resource_type : String
  id : Option String
  subject : Reference
deriving DecidableEq, Repr

/-- Rust `struct Encounter` (authorization-relevant projection). -/
structure Encounter where
  resource_type : String
  id : Option String
  status : String
  subject : Option Reference
deriving DecidableEq, Repr

/-- Rust `extract_patient_id_from_reference` (`authorization_rules.rs`). The Rust
call of strip on the `"Patient/"` pattern is modelled on the character list: if
`"Patient/"` is a prefix, drop its length, else keep the whole string. -/
def extract_patient_id_from_reference (reference : Option Reference) :
    Option String :=
  reference.bind (fun r => r.reference.map (fun ref_str =>
    if "Patient/".data <+: ref_str.data then
      String.mk (ref_str.data.drop "Patient/".data.length)
    else
      ref_str))

/-! ### Per-resource rule sets (`authorization_rules.rs`)

Each `XAuthorizationRules` struct is stateless (it holds only the zero-size
`DefaultAuthorizer`), so its methods are modelled as plain functions in a
namespace of the same name. -/

namespace PatientAuthorizationRules

/-- Rust `PatientAuthorizationRules::can_create`. -/
def can_create (context : SecurityContext) (_patient : Patient) :
    FhirResult Unit :=
  check_permission context "Patient" Permission.Create

/-- Rust `PatientAuthorizationRules::can_read`. -/
def can_read (context : SecurityContext) (patient_id : String) :
    FhirResult Unit :=
  check_resource_access context "Patient" patient_id Permission.Read

/-- Rust `PatientAuthorizationRules::can_update`. -/
def can_update (context : SecurityContext) (patient_id : String)
    (_patient : Patient) : FhirResult Unit :=
  check_resource_access context "Patient" patient_id Permission.Update

/-- Rust `PatientAuthorizationRules::can_delete`. -/
def can_delete (context : SecurityContext) (patient_id : String) :
    FhirResult Unit :=
  check_resource_access context "Patient" patient_id Permission.Delete

/-- Rust `PatientAuthorizationRules::can_search`. -/
def can_search (context : SecurityContext) : FhirResult Unit :=
  check_permission context "Patient" Permission.Search

/-- Rust `PatientAuthorizationRules::can_read_history`. -/
def can_read_history (context : SecurityContext) (patient_id : String) :
    FhirResult Unit :=
  check_resource_access context "Patient" patient_id Permission.ReadHistory

end PatientAuthorizationRules

namespace ObservationAuthorizationRules

/-- Rust `ObservationAuthorizationRules::can_create`; the two Rust `?` operators and
the final `Ok(())` are written as explicit branching. -/
def can_create (context : SecurityContext) (observation : Observation) :
    FhirResult Unit :=
  match check_permission context "Observation" Permission.Create with
  | Except.error e => Except.error e
  | Except.ok _ =>
    match extract_patient_id_from_reference observation.subject with
    | some patient_id =>
      match check_patient_compartment_access context patient_id Permission.Create with
      | Except.error e => Except.error e
      | Except.ok _ => Except.ok ()
    | none => Except.ok ()

/-- Rust `ObservationAuthorizationRules::can_read`. -/
def can_read (context : SecurityContext) (observation_id : String)
    (observation : Option Observation) : FhirResult Unit :=
  match check_resource_access context "Observation" observation_id Permission.Read with
  | Except.error e => Except.error e
  | Except.ok _ =>
    match observation with
    | some obs =>
      match extract_patient_id_from_reference obs.subject with
      | some patient_id =>
        match check_patient_compartment_access context patient_id Permission.Read with
        | Except.error e => Except.error e
        | Except.ok _ => Except.ok ()
      | none => Except.ok ()
    | none => Except.ok ()

/-- Rust `ObservationAuthorizationRules::can_update`. -/
def can_update (context : SecurityContext) (observation_id : String)
    (observation : Observation) : FhirResult Unit :=
  match check_resource_access context "Observation" observation_id Permission.Update with
  | Except.error e => Except.error e
  | Except.ok _ =>
    match extract_patient_id_from_reference observation.subject with
    | some patient_id =>
      match check_patient_compartment_access context patient_id Permission.Update with
      | Except.error e => Except.error e
      | Except.ok _ => Except.ok ()
    | none => Except.ok ()

/-- Rust `ObservationAuthorizationRules::can_delete`. -/
def can_delete (context : SecurityContext) (observation_id : String)
    (observation : Option Observation) : FhirResult Unit :=
  match check_resource_access context "Observation" observation_id Permission.Delete with
  | Except.error e => Except.error e
  | Except.ok _ =>
    match observation with
    | some obs =>
      match extract_patient_id_from_reference obs.subject with
      | some patient_id =>
        match check_patient_compartment_access context patient_id Permission.Delete with
        | Except.error e => Except.error e
        | Except.ok _ => Except.ok ()
      | none => Except.ok ()
    | none => Except.ok ()

/-- Rust `ObservationAuthorizationRules::can_search`. -/
def can_search (context : SecurityContext) (patient_id : Option String) :
    FhirResult Unit :=
  match check_permission context "Observation" Permission.Search with
  | Except.error e => Except.error e
  | Except.ok _ =>
    match patient_id with
    | some pid =>
      match check_patient_compartment_access context pid Permission.Search with
      | Except.error e => Except.error e
      | Except.ok _ => Except.ok ()
    | none => Except.ok ()

end ObservationAuthorizationRules

namespace ConditionAuthorizationRules

/-- Rust `ConditionAuthorizationRules::can_create`; the two Rust `?` operators and
the final `Ok(())` are written as explicit branching. -/
def can_create (context : SecurityContext) (condition : Condition) :
    FhirResult Unit :=
  match check_permission context "Condition" Permission.Create with
  | Except.error e => Except.error e
  | Except.ok _ =>
    match extract_patient_id_from_reference (some condition.subject) with
    | some patient_id =>
      match check_patient_compartment_access context patient_id Permission.Create with
      | Except.error e => Except.error e
      | Except.ok _ => Except.ok ()
    | none => Except.ok ()

/-- Rust `ConditionAuthorizationRules::can_read`. -/
def can_read (context : SecurityContext) (condition_id : String)
    (condition : Option Condition) : FhirResult Unit :=
  match check_resource_access context "Condition" condition_id Permission.Read with
  | Except.error e => Except.error e
  | Except.ok _ =>
    match condition with
    | some cond =>
      match extract_patient_id_from_reference (some cond.subject) with
      | some patient_id =>
        match check_patient_compartment_access context patient_id Permission.Read with
        | Except.error e => Except.error e
        | Except.ok _ => Except.ok ()
      | none => Except.ok ()
    | none => Except.ok ()

/-- Rust `ConditionAuthorizationRules::can_update`. -/
def can_update (context : SecurityContext) (condition_id : String)
    (condition : Condition) : FhirResult Unit :=
  match check_resource_access context "Condition" condition_id Permission.Update with
  | Except.error e => Except.error e
  | Except.ok _ =>
    match extract_patient_id_from_reference (some condition.subject) with
    | some patient_id =>
      match check_patient_compartment_access context patient_id Permission.Update with
      | Except.error e => Except.error e
      | Except.ok _ => Except.ok ()
    | none => Except.ok ()

/-- Rust `ConditionAuthorizationRules::can_delete`. -/
def can_delete (context : SecurityContext) (condition_id : String)
    (condition : Option Condition) : FhirResult Unit :=
  match check_resource_access context "Condition" condition_id Permission.Delete with
  | Except.error e => Except.error e
  | Except.ok _ =>
    match condition with
    | some cond =>
      match extract_patient_id_from_reference (some cond.subject) with
      | some patient_id =>
        match check_patient_compartment_access context patient_id Permission.Delete with
        | Except.error e => Except.error e
        | Except.ok _ => Except.ok ()
      | none => Except.ok ()
    | none => Except.ok ()

/-- Rust `ConditionAuthorizationRules::can_search`. -/
def can_search (context : SecurityContext) (patient_id : Option String) :
    FhirResult Unit :=
  match check_permission context "Condition" Permission.Search with
  | Except.error e => Except.error e
  | Except.ok _ =>
    match patient_id with
    | some pid =>
      match check_patient_compartment_access context pid Permission.Search with
      | Except.error e => Except.error e
      | Except.ok _ => Except.ok ()
    | none => Except.ok ()

end ConditionAuthorizationRules

namespace EncounterAuthorizationRules

/-- Rust `EncounterAuthorizationRules::can_create`; the two Rust `?` operators and
the final `Ok(())` are written as explicit branching. -/
def can_create (context : SecurityContext) (encounter : Encounter) :
    FhirResult Unit :=
  match check_permission context "Encounter" Permission.Create with
  | Except.error e => Except.error e
  | Except.ok _ =>
    match extract_patient_id_from_reference encounter.subject with
    | some patient_id =>
      match check_patient_compartment_access context patient_id Permission.Create with
      | Except.error e => Except.error e
      | Except.ok _ => Except.ok ()
    | none => Except.ok ()

/-- Rust `EncounterAuthorizationRules::can_read`. -/
def can_read (context : SecurityContext) (encounter_id : String)
    (encounter : Option Encounter) : FhirResult Unit :=
  match check_resource_access context "Encounter" encounter_id Permission.Read with
  | Except.error e => Except.error e
  | Except.ok _ =>
    match encounter with
    | some enc =>
      match extract_patient_id_from_reference enc.subject with
      | some patient_id =>
        match check_patient_compartment_access context patient_id Permission.Read with
        | Except.error e => Except.error e
        | Except.ok _ => Except.ok ()
      | none => Except.ok ()
    | none => Except.ok ()

/-- Rust `EncounterAuthorizationRules::can_update`. -/
def can_update (context : SecurityContext) (encounter_id : String)
    (encounter : Encounter) : FhirResult Unit :=
  match check_resource_access context "Encounter" encounter_id Permission.Update with
  | Except.error e => Except.error e
  | Except.ok _ =>
    match extract_patient_id_from_reference encounter.subject with
    | some patient_id =>
      match check_patient_compartment_access context patient_id Permission.Update with
      | Except.error e => Except.error e
      | Except.ok _ => Except.ok ()
    | none => Except.ok ()

/-- Rust `EncounterAuthorizationRules::can_delete`. -/
def can_delete (context : SecurityContext) (encounter_id : String)
    (encounter : Option Encounter) : FhirResult Unit :=
  match check_resource_access context "Encounter" encounter_id Permission.Delete with
  | Except.error e => Except.error e
  | Except.ok _ =>
    match encounter with
    | some enc =>
      match extract_patient_id_from_reference enc.subject with
      | some patient_id =>
        match check_patient_compartment_access context patient_id Permission.Delete with
        | Except.error e => Except.error e
        | Except.ok _ => Except.ok ()
      | none => Except.ok ()
    | none => Except.ok ()

/-- Rust `EncounterAuthorizationRules::can_search`. -/
def can_search (context : SecurityContext) (patient_id : Option String) :
    FhirResult Unit :=
  match check_permission context "Encounter" Permission.Search with
  | Except.error e => Except.error e
  | Except.ok _ =>
    match patient_id with
    | some pid =>
      match check_patient_compartment_access context pid Permission.Search with
      | Except.error e => Except.error e
      | Except.ok _ => Except.ok ()
    | none => Except.ok ()

end EncounterAuthorizationRules

/-! ### Sample resource values (used by concrete scenarios) -/

/-- A sample `Patient` resource. -/
def samplePatient : Patient :=
  { resource_type := "Patient", id := some "p1" }

/-- A sample `Observation` whose subject reference is `"Patient/p1"`
(mirrors the unit test in `authorization_rules.rs`). -/
def sampleObservation : Observation :=
  { resource_type := "Observation", id := none, status := "final",
    code := { text := some "Test" },
    subject := some { reference := some "Patient/p1", type_ := some "Patient",
                      identifier := none, display := none } }

/-- A sample `Condition` whose subject reference is `"Patient/p1"`. -/
def sampleCondition : Condition :=
  { resource_type := "Condition", id := none,
    subject := { reference := some "Patient/p1", type_ := some "Patient",
                 identifier := none, display := none } }

/-- A sample `Encounter` with no subject reference. -/
def sampleEncounter : Encounter :=
  { resource_type := "Encounter", id := none, status := "planned",
    subject := none }

end FhirServer

deriving instance DecidableEq for Except

namespace FhirServer

/-- Unfolding of `is_admin` down to role-list membership. -/
theorem is_admin_eq (ctx : SecurityContext) :
    ctx.is_admin = ctx.roles.contains Role.Admin := rfl

/-- Unfolding of `is_system` down to role-list membership. -/
theorem is_system_eq (ctx : SecurityContext) :
    ctx.is_system = ctx.roles.contains Role.System := rfl

/-- Unfolding of `is_patient` down to role-list membership. -/
theorem is_patient_eq (ctx : SecurityContext) :
    ctx.is_patient = ctx.roles.contains Role.Patient := rfl

end FhirServer

namespace FhirServer

/-! ### Helper lemmas shared by the claim theorems -/

/-- Rust `check_permission` succeeds exactly when some held role is granted the
permission by the matrix. -/
theorem check_permission_ok_iff (ctx : SecurityContext) (rt : String)
    (p : Permission) :
    check_permission ctx rt p = Except.ok () ↔
      ∃ r ∈ ctx.roles, role_has_permission r p = true := by
  have h : check_permission ctx rt p = Except.ok () ↔
      (ctx.roles.any fun role => role_has_permission role p) = true := by
    unfold check_permission
    by_cases hb : (ctx.roles.any fun role => role_has_permission role p) = true
    · simp [hb]
    · simp [hb]
  rw [h, List.any_eq_true]

/-- Every error produced by `check_permission` is `Forbidden`. -/
theorem check_permission_error_forbidden (ctx : SecurityContext) (rt : String)
    (p : Permission) (e : FhirError) :
    check_permission ctx rt p = Except.error e →
      ∃ m, e = FhirError.Forbidden m := by
  unfold check_permission
  by_cases hb : (ctx.roles.any fun role => role_has_permission role p) = true
  · simp [hb]
  · simp [hb]
    intro he
    exact ⟨_, he.symm⟩

/-- Rust `check_permission` never returns a non-unit `ok` payload or an `ok` and
an `error` at once: it is either `ok ()` or a `Forbidden` error. -/
theorem check_permission_cases (ctx : SecurityContext) (rt : String)
    (p : Permission) :
    check_permission ctx rt p = Except.ok () ∨
      ∃ m, check_permission ctx rt p = Except.error (FhirError.Forbidden m) := by
  unfold check_permission
  by_cases hb : (ctx.roles.any fun role => role_has_permission role p) = true
  · simp [hb]
  · simp [hb]

/-- Field values of the `patient` convenience constructor. -/
@[simp] theorem patient_roles_eq (uid x : String) :
    (SecurityContext.patient uid x).roles = [Role.Patient] := rfl

@[simp] theorem patient_patient_id_eq (uid x : String) :
    (SecurityContext.patient uid x).patient_id = some x := rfl

@[simp] theorem patient_user_id_eq (uid x : String) :
    (SecurityContext.patient uid x).user_id = uid := rfl

@[simp] theorem patient_is_admin (uid x : String) :
    (SecurityContext.patient uid x).is_admin = false := rfl

@[simp] theorem patient_is_system (uid x : String) :
    (SecurityContext.patient uid x).is_system = false := rfl

@[simp] theorem patient_is_patient (uid x : String) :
    (SecurityContext.patient uid x).is_patient = true := rfl

@[simp] theorem patient_get_patient_id (uid x : String) :
    (SecurityContext.patient uid x).get_patient_id = some x := rfl

/-! ### Claim theorems -/

/-- C2: `check_permission(ctx, rt, p)` succeeds iff at least one role in
`ctx.roles` grants `p` under the static matrix — Admin and System grant all
six permissions, Clinician grants Read/Create/Update/Search/ReadHistory but
not Delete, Patient grants only Read/Search/ReadHistory; the outcome is the
same for every resource-type string; and on denial the result is a
`Forbidden` error. -/
theorem check_permission_matrix_spec (ctx : SecurityContext) (rt rt' : String)
    (p : Permission) :
    (check_permission ctx rt p = Except.ok () ↔
      ∃ r ∈ ctx.roles, role_has_permission r p = true)
    ∧ (∀ q : Permission, role_has_permission Role.Admin q = true
        ∧ role_has_permission Role.System q = true)
    ∧ (∀ q : Permission,
        role_has_permission Role.Clinician q = true ↔ q ≠ Permission.Delete)
    ∧ (∀ q : Permission,
        role_has_permission Role.Patient q = true ↔
          (q = Permission.Read ∨ q = Permission.Search ∨ q = Permission.ReadHistory))
    ∧ (check_permission ctx rt p = Except.ok () ↔
        check_permission ctx rt' p = Except.ok ())
    ∧ (∀ e, check_permission ctx rt p = Except.error e →
        ∃ m, e = FhirError.Forbidden m) := by
  refine ⟨check_permission_ok_iff ctx rt p, ?_, ?_, ?_, ?_,
    check_permission_error_forbidden ctx rt p⟩
  · intro q; cases q <;> exact ⟨rfl, rfl⟩
  · intro q; cases q <;> simp [role_has_permission]
  · intro q; cases q <;> simp [role_has_permission]
  · rw [check_permission_ok_iff ctx rt p, check_permission_ok_iff ctx rt' p]

/-- Witness for the C2 theorem at concrete inputs: a pure Patient context
is granted Read, and the denial shape conjunct applies to the concrete
Create denial. -/
theorem check_permission_matrix_spec_witness :
    check_permission (SecurityContext.patient "u1" "p1") "Patient"
        Permission.Read = Except.ok ()
    ∧ ∃ m, FhirError.Forbidden
        "User u1 does not have permission Create for resource type Patient"
        = FhirError.Forbidden m := by
  constructor
  · exact (check_permission_matrix_spec (SecurityContext.patient "u1" "p1")
      "Patient" "Observation" Permission.Read).1.mpr
      ⟨Role.Patient, by decide, by decide⟩
  · exact (check_permission_matrix_spec (SecurityContext.patient "u1" "p1")
      "Patient" "Observation" Permission.Create).2.2.2.2.2 _ (by decide)

/-- C1: `check_patient_compartment_access(ctx, pid, p)` succeeds
unconditionally for Admin/System contexts; otherwise it succeeds exactly
when the base `check_permission(ctx, "Patient", p)` passes and, if the
context holds the Patient role, its `patient_id` is present and equals
`pid`; and every denial is a `Forbidden` error. -/
theorem check_patient_compartment_access_spec (ctx : SecurityContext)
    (pid : String) (p : Permission) :
    (check_patient_compartment_access ctx pid p = Except.ok () ↔
      ((ctx.is_admin || ctx.is_system) = true
        ∨ (check_permission ctx "Patient" p = Except.ok ()
            ∧ (ctx.is_patient = true → ctx.patient_id = some pid))))
    ∧ (∀ e, check_patient_compartment_access ctx pid p = Except.error e →
        ∃ m, e = FhirError.Forbidden m) := by
  unfold check_patient_compartment_access
  by_cases hA : (ctx.is_admin || ctx.is_system) = true
  · simp [hA]
  · rcases check_permission_cases ctx "Patient" p with hcp | ⟨m, hcp⟩
    · by_cases hP : ctx.is_patient = true
      · cases hpid : ctx.patient_id with
        | none => simp [hA, hcp, hP, SecurityContext.get_patient_id, hpid]
        | some x =>
          by_cases hx : x = pid
          · simp [hA, hcp, hP, SecurityContext.get_patient_id, hpid, hx]
          · simp [hA, hcp, hP, SecurityContext.get_patient_id, hpid,
              beq_eq_false_iff_ne.mpr hx, hx]
      · simp [hA, hcp, hP]
    · simp [hA, hcp]

/-- C3: `check_resource_access(ctx, rt, rid, p)` propagates a failing base
permission check unchanged; when the base check passes, Admin/System
contexts succeed regardless of `rid`, a Patient-role context asking for
resource type `"Patient"` succeeds exactly when its `patient_id` is present
and equals `rid` (and is otherwise denied with `Forbidden`), and every
other combination is granted; in particular a `patient(uid, x)` context is
denied `("Patient", y)` access with `Forbidden` whenever `x ≠ y` and
granted it when `y = x`. -/
theorem check_resource_access_spec (ctx : SecurityContext) (rt rid : String)
    (p : Permission) :
    (∀ e, check_permission ctx rt p = Except.error e →
        check_resource_access ctx rt rid p = Except.error e)
    ∧ (check_permission ctx rt p = Except.ok () →
        (((ctx.is_admin || ctx.is_system) = true →
            check_resource_access ctx rt rid p = Except.ok ())
          ∧ ((ctx.is_admin || ctx.is_system) = false →
              (((ctx.is_patient = true ∧ rt = "Patient") →
                  ((check_resource_access ctx rt rid p = Except.ok () ↔
                      ctx.patient_id = some rid)
                    ∧ ∀ e, check_resource_access ctx rt rid p = Except.error e →
                        ∃ m, e = FhirError.Forbidden m))
                ∧ (¬(ctx.is_patient = true ∧ rt = "Patient") →
                    check_resource_access ctx rt rid p = Except.ok ())))))
    ∧ (∀ uid x y : String, x ≠ y →
        ∃ m, check_resource_access (SecurityContext.patient uid x) "Patient" y
            Permission.Read = Except.error (FhirError.Forbidden m))
    ∧ (∀ uid x : String,
        check_resource_access (SecurityContext.patient uid x) "Patient" x
          Permission.Read = Except.ok ()) := by
  refine ⟨?_, ?_, ?_, ?_⟩
  · intro e he
    simp [check_resource_access, he]
  · intro hcp
    refine ⟨fun hA => by simp [check_resource_access, hcp, hA], fun hA => ⟨?_, ?_⟩⟩
    · rintro ⟨hP, hrt⟩
      subst hrt
      cases hpid : ctx.patient_id with
      | none =>
        simp [check_resource_access, hcp, hA, hP, SecurityContext.get_patient_id,
          hpid]
      | some w =>
        by_cases hw : w = rid
        · simp [check_resource_access, hcp, hA, hP, SecurityContext.get_patient_id,
            hpid, hw]
        · simp [check_resource_access, hcp, hA, hP, SecurityContext.get_patient_id,
            hpid, beq_eq_false_iff_ne.mpr hw, hw]
    · intro hnot
      have hb : (ctx.is_patient && (rt == "Patient")) = false := by
        by_cases hP : ctx.is_patient = true
        · have hrt : rt ≠ "Patient" := fun h => hnot ⟨hP, h⟩
          simp [hP, beq_eq_false_iff_ne.mpr hrt]
        · simp [Bool.not_eq_true] at hP
          simp [hP]
      simp [check_resource_access, hcp, hA, hb]
  · intro uid x y hxy
    refine ⟨"Patient " ++ uid ++ " cannot access Patient resource " ++ y, ?_⟩
    simp [check_resource_access, check_permission, role_has_permission,
      SecurityContext.get_patient_id, beq_eq_false_iff_ne.mpr hxy]
  · intro uid x
    simp [check_resource_access, check_permission, role_has_permission,
      SecurityContext.get_patient_id]

/-- Witness for the C3 theorem at concrete inputs: the mismatched-id denial
and the matching-id grant for a concrete patient context. -/
theorem check_resource_access_spec_witness :
    (∃ m, check_resource_access (SecurityContext.patient "u1" "p1") "Patient"
        "p2" Permission.Read = Except.error (FhirError.Forbidden m))
    ∧ check_resource_access (SecurityContext.patient "u1" "p1") "Patient" "p1"
        Permission.Read = Except.ok () := by
  constructor
  · exact (check_resource_access_spec (SecurityContext.patient "u1" "p1")
      "Patient" "p2" Permission.Read).2.2.1 "u1" "p1" "p2" (by decide)
  · exact (check_resource_access_spec (SecurityContext.patient "u1" "p1")
      "Patient" "p1" Permission.Read).2.2.2 "u1" "p1"

/-- Witness for the C1 theorem at concrete inputs: a Clinician context is
granted compartment access to an arbitrary patient compartment, and a
mismatched Patient context is denied with a `Forbidden` error. -/
theorem check_patient_compartment_access_spec_witness :
    check_patient_compartment_access (SecurityContext.clinician "doc1" none)
        "patient2" Permission.Read = Except.ok ()
    ∧ ∃ m, FhirError.Forbidden
        "Patient u1 cannot access patient compartment for patient p2"
        = FhirError.Forbidden m := by
  constructor
  · exact (check_patient_compartment_access_spec
      (SecurityContext.clinician "doc1" none) "patient2" Permission.Read).1.mpr
      (Or.inr ⟨by decide, by decide⟩)
  · exact (check_patient_compartment_access_spec
      (SecurityContext.patient "u1" "p1") "p2" Permission.Read).2 _ (by decide)

/-- C10: a security context whose role set is empty is denied every
operation with a `Forbidden` error by all three checks, for every
permission, resource-type string, resource id and compartment id. -/
theorem empty_roles_all_denied (ctx : SecurityContext) (h : ctx.roles = [])
    (rt rid pid : String) (p : Permission) :
    (∃ m, check_permission ctx rt p = Except.error (FhirError.Forbidden m))
    ∧ (∃ m, check_resource_access ctx rt rid p
        = Except.error (FhirError.Forbidden m))
    ∧ (∃ m, check_patient_compartment_access ctx pid p
        = Except.error (FhirError.Forbidden m)) := by
  have hperm : ∀ rt' : String, check_permission ctx rt' p
      = Except.error (FhirError.Forbidden
          ("User " ++ ctx.user_id ++ " does not have permission "
            ++ permissionDebug p ++ " for resource type " ++ rt')) := by
    intro rt'
    simp [check_permission, h]
  have hadm : ctx.is_admin = false := by
    rw [is_admin_eq, h]
    rfl
  have hsys : ctx.is_system = false := by
    rw [is_system_eq, h]
    rfl
  refine ⟨⟨_, hperm rt⟩,
    ⟨"User " ++ ctx.user_id ++ " does not have permission "
      ++ permissionDebug p ++ " for resource type " ++ rt, ?_⟩,
    ⟨"User " ++ ctx.user_id ++ " does not have permission "
      ++ permissionDebug p ++ " for resource type " ++ "Patient", ?_⟩⟩
  · simp [check_resource_access, hperm rt]
  · simp [check_patient_compartment_access, hadm, hsys, hperm "Patient"]

/-- Witness for the C10 theorem at a concrete empty-role context. -/
theorem empty_roles_all_denied_witness :
    (∃ m, check_permission ⟨"u0", [], none, none, []⟩ "Patient" Permission.Read
      = Except.error (FhirError.Forbidden m))
    ∧ (∃ m, check_resource_access ⟨"u0", [], none, none, []⟩ "Patient" "r1"
        Permission.Read = Except.error (FhirError.Forbidden m))
    ∧ (∃ m, check_patient_compartment_access ⟨"u0", [], none, none, []⟩ "p1"
        Permission.Read = Except.error (FhirError.Forbidden m)) :=
  empty_roles_all_denied ⟨"u0", [], none, none, []⟩ rfl "Patient" "r1" "p1"
    Permission.Read

/-- C9: for a context holding both the Patient and Clinician roles, the
Patient restriction dominates in instance-level checks: the context is
granted exactly the Clinician permission set by `check_permission` (for any
resource-type label), yet `check_patient_compartment_access` denies every
compartment id other than the own `patient_id` of the context, and
`check_resource_access` on resource type `"Patient"` denies every resource
id other than the own `patient_id` of the context — all with `Forbidden`. -/
theorem patient_clinician_restriction_dominates (uid x : String)
    (ctx : SecurityContext)
    (hctx : ctx = { user_id := uid, roles := [Role.Patient, Role.Clinician],
                    patient_id := some x, organization_id := none,
                    claims := [] }) :
    (∀ (rt : String) (p : Permission),
        check_permission ctx rt p = Except.ok () ↔
          role_has_permission Role.Clinician p = true)
    ∧ (∀ (y : String) (p : Permission), y ≠ x →
        ∃ m, check_patient_compartment_access ctx y p
          = Except.error (FhirError.Forbidden m))
    ∧ (∀ (rid : String) (p : Permission), rid ≠ x →
        ∃ m, check_resource_access ctx "Patient" rid p
          = Except.error (FhirError.Forbidden m)) := by
  subst hctx
  refine ⟨?_, ?_, ?_⟩
  · intro rt p
    rw [check_permission_ok_iff]
    constructor
    · rintro ⟨r, hr, hperm⟩
      simp only [List.mem_cons, List.not_mem_nil, or_false] at hr
      rcases hr with hr | hr <;> subst hr
      · cases p <;> simp [role_has_permission] at hperm ⊢
      · exact hperm
    · intro hcl
      exact ⟨Role.Clinician, by simp, hcl⟩
  · intro y p hy
    have hxy : (x == y) = false := beq_eq_false_iff_ne.mpr (fun h => hy h.symm)
    cases p <;>
      simp [check_patient_compartment_access, check_permission,
        role_has_permission, is_admin_eq, is_system_eq, is_patient_eq,
        SecurityContext.get_patient_id, hxy]
  · intro rid p hrid
    have hxr : (x == rid) = false :=
      beq_eq_false_iff_ne.mpr (fun h => hrid h.symm)
    cases p <;>
      simp [check_resource_access, check_permission, role_has_permission,
        is_admin_eq, is_system_eq, is_patient_eq,
        SecurityContext.get_patient_id, hxr]

/-- Witness for the C9 theorem at a concrete dual-role context. -/
theorem patient_clinician_restriction_dominates_witness :
    check_permission
        { user_id := "u1", roles := [Role.Patient, Role.Clinician],
          patient_id := some "p1", organization_id := none, claims := [] }
        "Observation" Permission.Update = Except.ok ()
    ∧ (∃ m, check_patient_compartment_access
        { user_id := "u1", roles := [Role.Patient, Role.Clinician],
          patient_id := some "p1", organization_id := none, claims := [] }
        "p2" Permission.Read = Except.error (FhirError.Forbidden m))
    ∧ (∃ m, check_resource_access
        { user_id := "u1", roles := [Role.Patient, Role.Clinician],
          patient_id := some "p1", organization_id := none, claims := [] }
        "Patient" "p2" Permission.Read
        = Except.error (FhirError.Forbidden m)) := by
  have h := patient_clinician_restriction_dominates "u1" "p1"
    { user_id := "u1", roles := [Role.Patient, Role.Clinician],
      patient_id := some "p1", organization_id := none, claims := [] } rfl
  exact ⟨(h.1 "Observation" Permission.Update).mpr (by decide),
    h.2.1 "p2" Permission.Read (by decide),
    h.2.2 "p2" Permission.Read (by decide)⟩

/-- C5: for the Observation, Condition and Encounter rule sets, `can_read`
and `can_delete` called with `none` for the resource argument perform no
compartment check — the result equals `check_resource_access` alone — and
in particular a Patient-role context is granted `can_read(ctx, id, none)`
for every observation id. -/
theorem read_delete_none_skips_compartment (ctx : SecurityContext)
    (rid : String) :
    (ObservationAuthorizationRules.can_read ctx rid none
      = check_resource_access ctx "Observation" rid Permission.Read)
    ∧ (ObservationAuthorizationRules.can_delete ctx rid none
      = check_resource_access ctx "Observation" rid Permission.Delete)
    ∧ (ConditionAuthorizationRules.can_read ctx rid none
      = check_resource_access ctx "Condition" rid Permission.Read)
    ∧ (ConditionAuthorizationRules.can_delete ctx rid none
      = check_resource_access ctx "Condition" rid Permission.Delete)
    ∧ (EncounterAuthorizationRules.can_read ctx rid none
      = check_resource_access ctx "Encounter" rid Permission.Read)
    ∧ (EncounterAuthorizationRules.can_delete ctx rid none
      = check_resource_access ctx "Encounter" rid Permission.Delete)
    ∧ (∀ uid x : String, ObservationAuthorizationRules.can_read
        (SecurityContext.patient uid x) rid none = Except.ok ()) := by
  refine ⟨?_, ?_, ?_, ?_, ?_, ?_, ?_⟩
  · cases h : check_resource_access ctx "Observation" rid Permission.Read with
    | error e => simp [ObservationAuthorizationRules.can_read, h]
    | ok u => cases u; simp [ObservationAuthorizationRules.can_read, h]
  · cases h : check_resource_access ctx "Observation" rid Permission.Delete with
    | error e => simp [ObservationAuthorizationRules.can_delete, h]
    | ok u => cases u; simp [ObservationAuthorizationRules.can_delete, h]
  · cases h : check_resource_access ctx "Condition" rid Permission.Read with
    | error e => simp [ConditionAuthorizationRules.can_read, h]
    | ok u => cases u; simp [ConditionAuthorizationRules.can_read, h]
  · cases h : check_resource_access ctx "Condition" rid Permission.Delete with
    | error e => simp [ConditionAuthorizationRules.can_delete, h]
    | ok u => cases u; simp [ConditionAuthorizationRules.can_delete, h]
  · cases h : check_resource_access ctx "Encounter" rid Permission.Read with
    | error e => simp [EncounterAuthorizationRules.can_read, h]
    | ok u => cases u; simp [EncounterAuthorizationRules.can_read, h]
  · cases h : check_resource_access ctx "Encounter" rid Permission.Delete with
    | error e => simp [EncounterAuthorizationRules.can_delete, h]
    | ok u => cases u; simp [EncounterAuthorizationRules.can_delete, h]
  · intro uid x
    simp [ObservationAuthorizationRules.can_read, check_resource_access,
      check_permission, role_has_permission, SecurityContext.get_patient_id]

/-- Witness for the C5 theorem: a Patient-role context is granted read
access to an arbitrary observation id when no resource data is passed. -/
theorem read_delete_none_skips_compartment_witness :
    ObservationAuthorizationRules.can_read (SecurityContext.patient "u1" "p1")
      "obs-of-another-patient" none = Except.ok () :=
  (read_delete_none_skips_compartment (SecurityContext.patient "u1" "p1")
    "obs-of-another-patient").2.2.2.2.2.2 "u1" "p1"

/-- C8: for the Observation, Condition and Encounter rule sets, if the
subject reference of the resource is absent (`subject` is `none`, or the
`reference` field of the `Reference` is `none`), then `can_create`, `can_read`
(with `some` resource), `can_update` and `can_delete` (with `some`
resource) perform no compartment check: each equals its base authorizer
check alone, so any context holding the base permission — including a
Patient-role context with an unrelated `patient_id` — is granted access. -/
theorem missing_subject_skips_compartment (ctx : SecurityContext)
    (rid : String) (obs : Observation) (cond : Condition) (enc : Encounter) :
    ((obs.subject = none ∨ ∃ r, obs.subject = some r ∧ r.reference = none) →
      (ObservationAuthorizationRules.can_create ctx obs
        = check_permission ctx "Observation" Permission.Create)
      ∧ (ObservationAuthorizationRules.can_read ctx rid (some obs)
        = check_resource_access ctx "Observation" rid Permission.Read)
      ∧ (ObservationAuthorizationRules.can_update ctx rid obs
        = check_resource_access ctx "Observation" rid Permission.Update)
      ∧ (ObservationAuthorizationRules.can_delete ctx rid (some obs)
        = check_resource_access ctx "Observation" rid Permission.Delete))
    ∧ (cond.subject.reference = none →
      (ConditionAuthorizationRules.can_create ctx cond
        = check_permission ctx "Condition" Permission.Create)
      ∧ (ConditionAuthorizationRules.can_read ctx rid (some cond)
        = check_resource_access ctx "Condition" rid Permission.Read)
      ∧ (ConditionAuthorizationRules.can_update ctx rid cond
        = check_resource_access ctx "Condition" rid Permission.Update)
      ∧ (ConditionAuthorizationRules.can_delete ctx rid (some cond)
        = check_resource_access ctx "Condition" rid Permission.Delete))
    ∧ ((enc.subject = none ∨ ∃ r, enc.subject = some r ∧ r.reference = none) →
      (EncounterAuthorizationRules.can_create ctx enc
        = check_permission ctx "Encounter" Permission.Create)
      ∧ (EncounterAuthorizationRules.can_read ctx rid (some enc)
        = check_resource_access ctx "Encounter" rid Permission.Read)
      ∧ (EncounterAuthorizationRules.can_update ctx rid enc
        = check_resource_access ctx "Encounter" rid Permission.Update)
      ∧ (EncounterAuthorizationRules.can_delete ctx rid (some enc)
        = check_resource_access ctx "Encounter" rid Permission.Delete))
    ∧ (∀ uid x : String, ObservationAuthorizationRules.can_read
        (SecurityContext.patient uid x) rid
        (some { resource_type := "Observation", id := none, status := "final",
                code := { text := none }, subject := none })
        = Except.ok ()) := by
  refine ⟨?_, ?_, ?_, ?_⟩
  · intro hs
    have hx : extract_patient_id_from_reference obs.subject = none := by
      rcases hs with h | ⟨r, hr, hrr⟩
      · simp [extract_patient_id_from_reference, h]
      · simp [extract_patient_id_from_reference, hr, hrr]
    refine ⟨?_, ?_, ?_, ?_⟩
    · cases h : check_permission ctx "Observation" Permission.Create with
      | error e => simp [ObservationAuthorizationRules.can_create, h]
      | ok u => cases u; simp [ObservationAuthorizationRules.can_create, h, hx]
    · cases h : check_resource_access ctx "Observation" rid Permission.Read with
      | error e => simp [ObservationAuthorizationRules.can_read, h]
      | ok u => cases u; simp [ObservationAuthorizationRules.can_read, h, hx]
    · cases h : check_resource_access ctx "Observation" rid Permission.Update with
      | error e => simp [ObservationAuthorizationRules.can_update, h]
      | ok u => cases u; simp [ObservationAuthorizationRules.can_update, h, hx]
    · cases h : check_resource_access ctx "Observation" rid Permission.Delete with
      | error e => simp [ObservationAuthorizationRules.can_delete, h]
      | ok u => cases u; simp [ObservationAuthorizationRules.can_delete, h, hx]
  · intro hs
    have hx : extract_patient_id_from_reference (some cond.subject) = none := by
      simp [extract_patient_id_from_reference, hs]
    refine ⟨?_, ?_, ?_, ?_⟩
    · cases h : check_permission ctx "Condition" Permission.Create with
      | error e => simp [ConditionAuthorizationRules.can_create, h]
      | ok u => cases u; simp [ConditionAuthorizationRules.can_create, h, hx]
    · cases h : check_resource_access ctx "Condition" rid Permission.Read with
      | error e => simp [ConditionAuthorizationRules.can_read, h]
      | ok u => cases u; simp [ConditionAuthorizationRules.can_read, h, hx]
    · cases h : check_resource_access ctx "Condition" rid Permission.Update with
      | error e => simp [ConditionAuthorizationRules.can_update, h]
      | ok u => cases u; simp [ConditionAuthorizationRules.can_update, h, hx]
    · cases h : check_resource_access ctx "Condition" rid Permission.Delete with
      | error e => simp [ConditionAuthorizationRules.can_delete, h]
      | ok u => cases u; simp [ConditionAuthorizationRules.can_delete, h, hx]
  · intro hs
    have hx : extract_patient_id_from_reference enc.subject = none := by
      rcases hs with h | ⟨r, hr, hrr⟩
      · simp [extract_patient_id_from_reference, h]
      · simp [extract_patient_id_from_reference, hr, hrr]
    refine ⟨?_, ?_, ?_, ?_⟩
    · cases h : check_permission ctx "Encounter" Permission.Create with
      | error e => simp [EncounterAuthorizationRules.can_create, h]
      | ok u => cases u; simp [EncounterAuthorizationRules.can_create, h, hx]
    · cases h : check_resource_access ctx "Encounter" rid Permission.Read with
      | error e => simp [EncounterAuthorizationRules.can_read, h]
      | ok u => cases u; simp [EncounterAuthorizationRules.can_read, h, hx]
    · cases h : check_resource_access ctx "Encounter" rid Permission.Update with
      | error e => simp [EncounterAuthorizationRules.can_update, h]
      | ok u => cases u; simp [EncounterAuthorizationRules.can_update, h, hx]
    · cases h : check_resource_access ctx "Encounter" rid Permission.Delete with
      | error e => simp [EncounterAuthorizationRules.can_delete, h]
      | ok u => cases u; simp [EncounterAuthorizationRules.can_delete, h, hx]
  · intro uid x
    simp [ObservationAuthorizationRules.can_read, check_resource_access,
      check_permission, role_has_permission, SecurityContext.get_patient_id,
      extract_patient_id_from_reference]

/-- Witness for the C8 theorem: a Patient-role context with patient id
`"p1"` is granted read access to a concrete subjectless observation. -/
theorem missing_subject_skips_compartment_witness :
    ObservationAuthorizationRules.can_read (SecurityContext.patient "u1" "p1")
      "obs9"
      (some { resource_type := "Observation", id := none, status := "final",
              code := { text := none }, subject := none })
      = Except.ok () := by
  have h := missing_subject_skips_compartment (SecurityContext.patient "u1" "p1")
    "obs9"
    { resource_type := "Observation", id := none, status := "final",
      code := { text := none }, subject := none }
    sampleCondition sampleEncounter
  exact h.2.2.2 "u1" "p1"

/-- C6: compartment-id extraction strips a literal `"Patient/"` prefix when
present (the extracted id is the suffix after the prefix), uses the whole
reference string verbatim otherwise, never fails when a reference string is
present, and compartment matching of a Patient-role context against such a
non-prefixed raw value denies unless the `patient_id` of the context equals the
raw string exactly. -/
theorem extract_patient_id_spec :
    (∀ (t : String) (ty : Option String) (idf : Option Identifier)
        (dsp : Option String),
      extract_patient_id_from_reference
        (some { reference := some ("Patient/" ++ t), type_ := ty,
                identifier := idf, display := dsp }) = some t)
    ∧ (∀ (s : String) (ty : Option String) (idf : Option Identifier)
        (dsp : Option String), (¬ ∃ t, s = "Patient/" ++ t) →
      extract_patient_id_from_reference
        (some { reference := some s, type_ := ty, identifier := idf,
                display := dsp }) = some s)
    ∧ (∀ (r : Reference) (s : String), r.reference = some s →
        ∃ i, extract_patient_id_from_reference (some r) = some i)
    ∧ (∀ uid x s : String, x ≠ s →
        ∃ m, check_patient_compartment_access (SecurityContext.patient uid x) s
            Permission.Read = Except.error (FhirError.Forbidden m)) := by
  refine ⟨?_, ?_, ?_, ?_⟩
  · intro t ty idf dsp
    have hpre : "Patient/".data <+: ("Patient/" ++ t).data := by
      rw [String.data_append]
      exact List.prefix_append _ _
    show some (if "Patient/".data <+: ("Patient/" ++ t).data
        then String.mk (("Patient/" ++ t).data.drop "Patient/".data.length)
        else ("Patient/" ++ t)) = some t
    rw [if_pos hpre, String.data_append, List.drop_left]
  · intro s ty idf dsp h
    have hpre : ¬ ("Patient/".data <+: s.data) := by
      intro hp
      rcases hp with ⟨rest, hrest⟩
      exact h ⟨String.mk rest,
        String.ext (by rw [String.data_append]; exact hrest.symm)⟩
    show some (if "Patient/".data <+: s.data
        then String.mk (s.data.drop "Patient/".data.length)
        else s) = some s
    rw [if_neg hpre]
  · intro r s h
    simp [extract_patient_id_from_reference, h]
  · intro uid x s hxs
    have hb : (x == s) = false := beq_eq_false_iff_ne.mpr hxs
    simp [check_patient_compartment_access, check_permission,
      role_has_permission, SecurityContext.get_patient_id, hb]

/-- Witness for the C6 theorem at concrete inputs: a prefixed reference, a
non-prefixed reference, and the denial of a Patient context against the
raw fallback id. -/
theorem extract_patient_id_spec_witness :
    extract_patient_id_from_reference
      (some { reference := some "Patient/123", type_ := none,
              identifier := none, display := none }) = some "123"
    ∧ extract_patient_id_from_reference
      (some { reference := some "Group/9", type_ := none,
              identifier := none, display := none }) = some "Group/9"
    ∧ (∃ m, check_patient_compartment_access (SecurityContext.patient "u1" "p1")
        "Group/9" Permission.Read = Except.error (FhirError.Forbidden m)) := by
  refine ⟨?_, ?_, ?_⟩
  · have e : ("Patient/" : String) ++ "123" = "Patient/123" := rfl
    rw [← e]
    exact extract_patient_id_spec.1 "123" none none none
  · refine extract_patient_id_spec.2.1 "Group/9" none none none ?_
    rintro ⟨t, ht⟩
    have h2 := congrArg (fun q : String => q.data.head?) ht
    simp [String.data_append] at h2
  · exact extract_patient_id_spec.2.2.2 "u1" "p1" "Group/9" (by decide)

/-- C7 counterexample: for the Patient context `patient("u1", "p1")` and
compartment id `"p2"`, the denial message is
`"Patient u1 cannot access patient compartment for patient p2"`, which
names the user id `"u1"` and the requested id `"p2"` but does not contain
the own patient id `"p1"` of the context anywhere. -/
theorem compartment_message_counterexample :
    check_patient_compartment_access (SecurityContext.patient "u1" "p1") "p2"
        Permission.Read
      = Except.error (FhirError.Forbidden
          "Patient u1 cannot access patient compartment for patient p2")
    ∧ ¬ ("p1".data <:+:
          "Patient u1 cannot access patient compartment for patient p2".data) :=
  ⟨by decide, by decide⟩

/-- C7 (amended): for every Patient-role context `patient(uid, x)`, every
compartment id `y ≠ x`, and every permission the Patient role grants, the
denial returned by `check_patient_compartment_access` is a `Forbidden`
error whose message names the user id of the context and the requested
compartment id `y` (not the own patient id `x` of the context). -/
theorem compartment_mismatch_message_names_user_and_target (uid x y : String)
    (p : Permission) (hxy : x ≠ y)
    (hp : role_has_permission Role.Patient p = true) :
    check_patient_compartment_access (SecurityContext.patient uid x) y p
      = Except.error (FhirError.Forbidden
          ("Patient " ++ uid ++ " cannot access patient compartment for patient "
            ++ y))
    ∧ uid.data <:+: ("Patient " ++ uid
        ++ " cannot access patient compartment for patient " ++ y).data
    ∧ y.data <:+: ("Patient " ++ uid
        ++ " cannot access patient compartment for patient " ++ y).data := by
  refine ⟨?_, ?_, ?_⟩
  · have hok : check_permission (SecurityContext.patient uid x) "Patient" p
        = Except.ok () := by
      simp [check_permission, hp]
    simp [check_patient_compartment_access, hok, SecurityContext.get_patient_id,
      beq_eq_false_iff_ne.mpr hxy]
  · refine ⟨"Patient ".data,
      (" cannot access patient compartment for patient " ++ y).data, ?_⟩
    simp [String.data_append, List.append_assoc]
  · refine ⟨("Patient " ++ uid
      ++ " cannot access patient compartment for patient ").data, [], ?_⟩
    simp [String.data_append, List.append_assoc]

/-- Witness for the amended C7 theorem at concrete inputs. -/
theorem compartment_mismatch_message_names_user_and_target_witness :
    check_patient_compartment_access (SecurityContext.patient "u1" "p1") "p2"
        Permission.Read
      = Except.error (FhirError.Forbidden
          ("Patient " ++ "u1" ++ " cannot access patient compartment for patient "
            ++ "p2"))
    ∧ "u1".data <:+: ("Patient " ++ "u1"
        ++ " cannot access patient compartment for patient " ++ "p2").data
    ∧ "p2".data <:+: ("Patient " ++ "u1"
        ++ " cannot access patient compartment for patient " ++ "p2").data :=
  compartment_mismatch_message_names_user_and_target "u1" "p1" "p2"
    Permission.Read (by decide) (by decide)

/-- C4: every rule-set method of the four rule sets returns the error of
its first failing authorizer check unchanged, with no wrapping (the Patient
rule-set methods are definitionally equal to their single authorizer call;
the Observation/Condition/Encounter methods propagate a failing first check
verbatim); in particular, for the context `patient("u1", "p1")` and an
Observation whose subject `"Patient/p1"` matches the own patient
id, `can_create` returns exactly the `Forbidden` error produced by the
Create-permission check. -/
theorem rule_set_short_circuit (ctx : SecurityContext) (e : FhirError)
    (rid : String) (pat : Patient) (obs : Observation) (cond : Condition)
    (enc : Encounter) (optObs : Option Observation)
    (optCond : Option Condition) (optEnc : Option Encounter)
    (optPid : Option String) :
    (PatientAuthorizationRules.can_create ctx pat
      = check_permission ctx "Patient" Permission.Create)
    ∧ (PatientAuthorizationRules.can_read ctx rid
      = check_resource_access ctx "Patient" rid Permission.Read)
    ∧ (PatientAuthorizationRules.can_update ctx rid pat
      = check_resource_access ctx "Patient" rid Permission.Update)
    ∧ (PatientAuthorizationRules.can_delete ctx rid
      = check_resource_access ctx "Patient" rid Permission.Delete)
    ∧ (PatientAuthorizationRules.can_search ctx
      = check_permission ctx "Patient" Permission.Search)
    ∧ (PatientAuthorizationRules.can_read_history ctx rid
      = check_resource_access ctx "Patient" rid Permission.ReadHistory)
    ∧ (check_permission ctx "Observation" Permission.Create = Except.error e →
        ObservationAuthorizationRules.can_create ctx obs = Except.error e)
    ∧ (check_resource_access ctx "Observation" rid Permission.Read = Except.error e →
        ObservationAuthorizationRules.can_read ctx rid optObs = Except.error e)
    ∧ (check_resource_access ctx "Observation" rid Permission.Update = Except.error e →
        ObservationAuthorizationRules.can_update ctx rid obs = Except.error e)
    ∧ (check_resource_access ctx "Observation" rid Permission.Delete = Except.error e →
        ObservationAuthorizationRules.can_delete ctx rid optObs = Except.error e)
    ∧ (check_permission ctx "Observation" Permission.Search = Except.error e →
        ObservationAuthorizationRules.can_search ctx optPid = Except.error e)
    ∧ (check_permission ctx "Condition" Permission.Create = Except.error e →
        ConditionAuthorizationRules.can_create ctx cond = Except.error e)
    ∧ (check_resource_access ctx "Condition" rid Permission.Read = Except.error e →
        ConditionAuthorizationRules.can_read ctx rid optCond = Except.error e)
    ∧ (check_resource_access ctx "Condition" rid Permission.Update = Except.error e →
        ConditionAuthorizationRules.can_update ctx rid cond = Except.error e)
    ∧ (check_resource_access ctx "Condition" rid Permission.Delete = Except.error e →
        ConditionAuthorizationRules.can_delete ctx rid optCond = Except.error e)
    ∧ (check_permission ctx "Condition" Permission.Search = Except.error e →
        ConditionAuthorizationRules.can_search ctx optPid = Except.error e)
    ∧ (check_permission ctx "Encounter" Permission.Create = Except.error e →
        EncounterAuthorizationRules.can_create ctx enc = Except.error e)
    ∧ (check_resource_access ctx "Encounter" rid Permission.Read = Except.error e →
        EncounterAuthorizationRules.can_read ctx rid optEnc = Except.error e)
    ∧ (check_resource_access ctx "Encounter" rid Permission.Update = Except.error e →
        EncounterAuthorizationRules.can_update ctx rid enc = Except.error e)
    ∧ (check_resource_access ctx "Encounter" rid Permission.Delete = Except.error e →
        EncounterAuthorizationRules.can_delete ctx rid optEnc = Except.error e)
    ∧ (check_permission ctx "Encounter" Permission.Search = Except.error e →
        EncounterAuthorizationRules.can_search ctx optPid = Except.error e)
    ∧ (ObservationAuthorizationRules.can_create
        (SecurityContext.patient "u1" "p1") sampleObservation
        = check_permission (SecurityContext.patient "u1" "p1") "Observation"
            Permission.Create
      ∧ check_permission (SecurityContext.patient "u1" "p1") "Observation"
            Permission.Create
        = Except.error (FhirError.Forbidden
            "User u1 does not have permission Create for resource type Observation")) := by
  refine ⟨rfl, rfl, rfl, rfl, rfl, rfl,
    ?_, ?_, ?_, ?_, ?_, ?_, ?_, ?_, ?_, ?_, ?_, ?_, ?_, ?_, ?_, ?_⟩
  · intro h
    simp [ObservationAuthorizationRules.can_create, h]
  · intro h
    simp [ObservationAuthorizationRules.can_read, h]
  · intro h
    simp [ObservationAuthorizationRules.can_update, h]
  · intro h
    simp [ObservationAuthorizationRules.can_delete, h]
  · intro h
    simp [ObservationAuthorizationRules.can_search, h]
  · intro h
    simp [ConditionAuthorizationRules.can_create, h]
  · intro h
    simp [ConditionAuthorizationRules.can_read, h]
  · intro h
    simp [ConditionAuthorizationRules.can_update, h]
  · intro h
    simp [ConditionAuthorizationRules.can_delete, h]
  · intro h
    simp [ConditionAuthorizationRules.can_search, h]
  · intro h
    simp [EncounterAuthorizationRules.can_create, h]
  · intro h
    simp [EncounterAuthorizationRules.can_read, h]
  · intro h
    simp [EncounterAuthorizationRules.can_update, h]
  · intro h
    simp [EncounterAuthorizationRules.can_delete, h]
  · intro h
    simp [EncounterAuthorizationRules.can_search, h]
  · exact ⟨by decide, by decide⟩

/-- Witness for the C4 theorem: at the concrete scenario context, the
error of the failing Create-permission check is returned unchanged by
`ObservationAuthorizationRules.can_create`. -/
theorem rule_set_short_circuit_witness :
    ObservationAuthorizationRules.can_create (SecurityContext.patient "u1" "p1")
        sampleObservation
      = Except.error (FhirError.Forbidden
          "User u1 does not have permission Create for resource type Observation") := by
  have h := rule_set_short_circuit (SecurityContext.patient "u1" "p1")
    (FhirError.Forbidden
      "User u1 does not have permission Create for resource type Observation")
    "r1" samplePatient sampleObservation sampleCondition sampleEncounter
    none none none none
  exact h.2.2.2.2.2.2.1 (by decide)

end FhirServer
